import Mathlib

/-!
Shallow embedding of the `gitmeta` Python binding
(`src/python/gitmeta/repo.py` and `src/python/gitmeta/exceptions.py`).

The binding shells out to an external `git-meta` binary.  We model:
* the Python value universe relevant to the spawned command vector
  (`PyVal`: strings, plus the staticmethod object `Repo._get_git_meta_bin`
  which the source places — uncalled — at the head of the vector);
* the child process as an abstract runner (a stub, in the sense of the
  testable properties of the specification): a function from the spawned
  invocation (command vector and working directory) to a process result
  (return code, stdout, stderr);
* each operation as a pure function returning its result together with the
  list of invocations it spawned, so that "no external process is spawned"
  is a provable statement (empty trace);
* the exception class hierarchy of `exceptions.py` as a finite class graph
  with its method-resolution ancestry.
-/

namespace GitMeta

/-- Result of a completed child process: `returncode`, captured `stdout`
and `stderr` (as produced by `pipes.communicate()`). -/
structure ProcResult where
  returncode : Int
  stdout : String
  stderr : String
deriving DecidableEq

/-- Python values that can appear in the command vector handed to
`subprocess.Popen`.  `str s` is a Python string; `func` is the staticmethod
object `Repo._get_git_meta_bin` itself (the source writes
`cmd = [Repo._get_git_meta_bin]` without calling it, so the function
object — not its return value — is the element placed in the list). -/
inductive PyVal where
  | str (s : String)
  | func
deriving DecidableEq

/-- One spawn of the external binary: the command vector given to
`subprocess.Popen` and the working directory (`cwd`). -/
structure Invocation where
  cmd : List PyVal
  cwd : Option String
deriving DecidableEq

/-- Abstract child-process behaviour: what the spawned process does for a
given invocation.  This is the "stub runner" of the specification's
testable properties. -/
abbrev Runner : Type := Invocation → ProcResult

/-- Exceptions raised by the binding.  The first three embed the classes of
`exceptions.py` (with the fields stored by their constructors); `assertionError`
embeds Python's `AssertionError` raised by a failing `assert`. -/
inductive Exc where
  | missingGitMetaClone (clone_dir : String)
  | noSuchPath (msg : String)
  | gitMetaCommand (returncode : Int) (args : List String) (stdout stderr : String)
  | assertionError
deriving DecidableEq

/-- Embeds Python `str.strip()` at the character level: drop whitespace
characters from both ends, leaving interior characters untouched. -/
def pyStrip (s : String) : String :=
  ⟨((s.data.dropWhile Char.isWhitespace).reverse.dropWhile Char.isWhitespace).reverse⟩

/-- Embeds Python `str.startswith(pre)` at the character level. -/
def pyStartsWith (s pre : String) : Bool := pre.data.isPrefixOf s.data

/-- Embeds Python `str.endswith(post)` at the character level. -/
def pyEndsWith (s post : String) : Bool := post.data.reverse.isPrefixOf s.data.reverse

/-- Embeds `os.path.join(a, b)` (POSIX semantics): an absolute `b` replaces
the accumulated path; otherwise a separator is inserted unless `a` is empty
or already ends with one. -/
def osPathJoin (a b : String) : String :=
  if pyStartsWith b "/" then b
  else if a = "" || pyEndsWith a "/" then a ++ b
  else a ++ "/" ++ b

/-- Embeds `Repo._get_git_meta_bin()`: the executable name looked up on the
search path. -/
def get_git_meta_bin : String := "git-meta"

/-- Embeds the command-vector construction of `Repo._execute_git_meta_cmd`:
`cmd = [Repo._get_git_meta_bin]; cmd.extend(args)`.  The head is the
uncalled staticmethod object (`PyVal.func`), then the caller's args. -/
def buildCmd (args : List String) : List PyVal :=
  PyVal.func :: args.map PyVal.str

/-- Embeds `Repo._execute_git_meta_cmd(args, cwd)`: spawn the command vector
`buildCmd args` in `cwd`, return stripped stdout on exit code 0, otherwise
raise `GitMetaCommandException(returncode, args, stdout, stderr)`.
The second component is the list of invocations spawned. -/
def execute_git_meta_cmd (run : Runner) (args : List String) (cwd : Option String) :
    Except Exc String × List Invocation :=
  let inv : Invocation := ⟨buildCmd args, cwd⟩
  let pipes := run inv
  if pipes.returncode = 0 then
    (Except.ok (pyStrip pipes.stdout), [inv])
  else
    (Except.error (Exc.gitMetaCommand pipes.returncode args pipes.stdout pipes.stderr), [inv])

/-- Embeds `Repo._root(cwd)`: run `git meta root`. -/
def root (run : Runner) (cwd : Option String) : Except Exc String × List Invocation :=
  execute_git_meta_cmd run ["root"] cwd

/-- Embeds `Repo.help(cwd)`: run `git meta help`. -/
def help (run : Runner) (cwd : Option String) : Except Exc String × List Invocation :=
  execute_git_meta_cmd run ["help"] cwd

/-- Embeds `Repo.version(cwd)`: run `git meta version`. -/
def version (run : Runner) (cwd : Option String) : Except Exc String × List Invocation :=
  execute_git_meta_cmd run ["version"] cwd

/-- Embeds `Repo.get_working_dir(clone_dir)`.  `fs` is the filesystem
existence predicate (`os.path.exists`).  If the directory does not exist a
`NoSuchPathException` is raised before anything is spawned; otherwise the
root probe runs, and only a `GitMetaCommandException` from it is converted
to the absence value `none`. -/
def get_working_dir (fs : String → Bool) (run : Runner) (clone_dir : String) :
    Except Exc (Option String) × List Invocation :=
  if fs clone_dir = false then
    (Except.error (Exc.noSuchPath ("Could not read " ++ clone_dir)), [])
  else
    match root run (some clone_dir) with
    | (Except.ok s, tr) => (Except.ok (some s), tr)
    | (Except.error (Exc.gitMetaCommand _ _ _ _), tr) => (Except.ok none, tr)
    | (Except.error e, tr) => (Except.error e, tr)

/-- Embeds the state of a constructed `Repo` object: `working_dir` and
`git_dir`. -/
structure Repo where
  working_dir : String
  git_dir : String
deriving DecidableEq

/-- Embeds `Repo.__init__(clone_dir)`: resolve the working directory; if the
result is falsy (`None` or the empty string — Python's `if not working_dir`)
raise `MissingGitMetaCloneException(clone_dir)`; otherwise bind
`working_dir` and `git_dir = os.path.join(working_dir, '.git')`. -/
def Repo.init (fs : String → Bool) (run : Runner) (clone_dir : String) :
    Except Exc Repo × List Invocation :=
  match get_working_dir fs run clone_dir with
  | (Except.error e, tr) => (Except.error e, tr)
  | (Except.ok none, tr) => (Except.error (Exc.missingGitMetaClone clone_dir), tr)
  | (Except.ok (some w), tr) =>
    if w = "" then (Except.error (Exc.missingGitMetaClone clone_dir), tr)
    else (Except.ok ⟨w, osPathJoin w ".git"⟩, tr)

/-- A dynamically typed argument to `open`/`checkout`: either an actual
Python `list` of strings, or a plain string (a non-list value, which the
`assert isinstance(..., list)` precondition rejects). -/
inductive PyArg where
  | list (xs : List String)
  | pystr (s : String)
deriving DecidableEq

/-- Embeds `Repo.open(submodules)`: `assert isinstance(submodules, list)`,
then run `['open'] + submodules` in the repo's working directory. -/
def Repo.openCmd (repo : Repo) (run : Runner) (submodules : PyArg) :
    Except Exc Unit × List Invocation :=
  match submodules with
  | PyArg.pystr _ => (Except.error Exc.assertionError, [])
  | PyArg.list xs =>
    match execute_git_meta_cmd run ("open" :: xs) (some repo.working_dir) with
    | (Except.ok _, tr) => (Except.ok (), tr)
    | (Except.error e, tr) => (Except.error e, tr)

/-- Embeds `Repo.checkout(params)`: `assert isinstance(params, list)`, then
run `['checkout'] + params` in the repo's working directory. -/
def Repo.checkout (repo : Repo) (run : Runner) (params : PyArg) :
    Except Exc Unit × List Invocation :=
  match params with
  | PyArg.pystr _ => (Except.error Exc.assertionError, [])
  | PyArg.list xs =>
    match execute_git_meta_cmd run ("checkout" :: xs) (some repo.working_dir) with
    | (Except.ok _, tr) => (Except.ok (), tr)
    | (Except.error e, tr) => (Except.error e, tr)

/-- Embeds `Repo.is_open(submodule)`: a purely local filesystem check of
`os.path.exists(os.path.join(working_dir, submodule, '.git'))`.  It takes
no runner and spawns nothing. -/
def Repo.is_open (fs : String → Bool) (repo : Repo) (submodule : String) : Bool :=
  fs (osPathJoin (osPathJoin repo.working_dir submodule) ".git")

/-- The exception classes of `exceptions.py`, together with the built-in
classes they reference. -/
inductive PyClass where
  | exc
  | osError
  | gitMetaException
  | missingGitMetaCloneException
  | noSuchPathException
  | gitMetaCommandException
deriving DecidableEq

/-- Direct base classes, exactly as declared in `exceptions.py` (and the
built-in hierarchy `OSError <: Exception`). -/
def bases : PyClass → List PyClass
  | PyClass.exc => []
  | PyClass.osError => [PyClass.exc]
  | PyClass.gitMetaException => [PyClass.exc]
  | PyClass.missingGitMetaCloneException => [PyClass.gitMetaException]
  | PyClass.noSuchPathException => [PyClass.gitMetaException, PyClass.osError]
  | PyClass.gitMetaCommandException => [PyClass.gitMetaException]

/-- All ancestors of a class reachable in at most `n` base-class steps
(including the class itself). -/
def ancestors : Nat → PyClass → List PyClass
  | 0, c => [c]
  | n + 1, c => c :: (bases c).flatMap (ancestors n)

/-- Embeds `issubclass(c, d)`: the class graph has depth below 6, so six
steps of base-class chasing are exhaustive. -/
def isSubclass (c d : PyClass) : Bool := d ∈ ancestors 6 c

/-- Stub external tool that always exits 0 and prints `out`. -/
def stubOk (out : String) : Runner := fun _ => ⟨0, out, ""⟩

/-- Stub external tool that always exits 1 with stderr `not a clone`. -/
def stubFail : Runner := fun _ => ⟨1, "", "not a clone"⟩

/-- The low-level execute operation spawns exactly one child process, with
command vector `buildCmd args` and the given working directory. -/
theorem execute_git_meta_cmd_trace (run : Runner) (args : List String) (cwd : Option String) :
    (execute_git_meta_cmd run args cwd).2 = [⟨buildCmd args, cwd⟩] := by
  simp only [execute_git_meta_cmd]
  split <;> rfl

/-- Case law for the execute operation: success branch. -/
theorem execute_git_meta_cmd_ok (run : Runner) (args : List String) (cwd : Option String)
    (h : (run ⟨buildCmd args, cwd⟩).returncode = 0) :
    execute_git_meta_cmd run args cwd =
      (Except.ok (pyStrip (run ⟨buildCmd args, cwd⟩).stdout), [⟨buildCmd args, cwd⟩]) := by
  simp only [execute_git_meta_cmd]
  simp [h]

/-- Case law for the execute operation: failure branch. -/
theorem execute_git_meta_cmd_err (run : Runner) (args : List String) (cwd : Option String)
    (h : (run ⟨buildCmd args, cwd⟩).returncode ≠ 0) :
    execute_git_meta_cmd run args cwd =
      (Except.error (Exc.gitMetaCommand (run ⟨buildCmd args, cwd⟩).returncode args
        (run ⟨buildCmd args, cwd⟩).stdout (run ⟨buildCmd args, cwd⟩).stderr),
       [⟨buildCmd args, cwd⟩]) := by
  simp only [execute_git_meta_cmd]
  simp [h]

/-- When the candidate directory does not exist, `get_working_dir` raises
`NoSuchPathException` with nothing spawned. -/
theorem get_working_dir_no_path (fs : String → Bool) (run : Runner) (d : String)
    (h : fs d = false) :
    get_working_dir fs run d =
      (Except.error (Exc.noSuchPath ("Could not read " ++ d)), []) := by
  simp [get_working_dir, h]

/-- When the directory exists and the root probe exits 0, `get_working_dir`
returns the stripped stdout of the probe. -/
theorem get_working_dir_ok (fs : String → Bool) (run : Runner) (d : String)
    (hfs : fs d = true)
    (hrc : (run ⟨buildCmd ["root"], some d⟩).returncode = 0) :
    get_working_dir fs run d =
      (Except.ok (some (pyStrip (run ⟨buildCmd ["root"], some d⟩).stdout)),
       [⟨buildCmd ["root"], some d⟩]) := by
  have h := execute_git_meta_cmd_ok run ["root"] (some d) hrc
  simp [get_working_dir, hfs, root, h]

/-- When the directory exists and the root probe exits non-zero,
`get_working_dir` swallows the command failure and returns `none`. -/
theorem get_working_dir_probe_fail (fs : String → Bool) (run : Runner) (d : String)
    (hfs : fs d = true)
    (hrc : (run ⟨buildCmd ["root"], some d⟩).returncode ≠ 0) :
    get_working_dir fs run d = (Except.ok none, [⟨buildCmd ["root"], some d⟩]) := by
  have h := execute_git_meta_cmd_err run ["root"] (some d) hrc
  simp [get_working_dir, hfs, root, h]

/-- A path of the form `a ++ "/" ++ b` is never the empty string. -/
theorem append_slash_ne_empty (a b : String) : a ++ "/" ++ b ≠ "" := by
  intro h
  have hd : (a ++ "/" ++ b).data = ("" : String).data := by rw [h]
  simp [String.data_append] at hd

/-- C1: the claim says the child process is spawned with the resolved binary
name `git-meta` as the first element of the command vector.  The source
instead writes `cmd = [Repo._get_git_meta_bin]` without calling the
function, so the first element is the staticmethod object itself, which is
not the string `'git-meta'`: shown here at the concrete root probe. -/
theorem C1_spawn_head_is_uncalled_method :
    (execute_git_meta_cmd (stubOk "/repo\n") ["root"] none).2 =
      [⟨[PyVal.func, PyVal.str "root"], none⟩] ∧
    PyVal.func ≠ PyVal.str get_git_meta_bin :=
  ⟨rfl, by decide⟩

/-- C2: for an existing candidate directory whose root probe exits non-zero,
`get_working_dir` swallows the `GitMetaCommandException` and returns the
absence value `none`, and `Repo.__init__` then raises
`MissingGitMetaCloneException` carrying the candidate directory — never the
command failure itself. -/
theorem C2_probe_failure_swallowed (fs : String → Bool) (run : Runner) (d : String)
    (hfs : fs d = true)
    (hrc : (run ⟨buildCmd ["root"], some d⟩).returncode ≠ 0) :
    get_working_dir fs run d = (Except.ok none, [⟨buildCmd ["root"], some d⟩]) ∧
    (Repo.init fs run d).1 = Except.error (Exc.missingGitMetaClone d) := by
  have h := get_working_dir_probe_fail fs run d hfs hrc
  exact ⟨h, by simp [Repo.init, h]⟩

/-- C2 witness: the spec scenario — a stub whose root probe exits 1 with
stderr `not a clone`, run on the existing directory `/tmp/x`. -/
theorem C2_witness :
    get_working_dir (fun _ => true) stubFail "/tmp/x" =
      (Except.ok none, [⟨buildCmd ["root"], some "/tmp/x"⟩]) ∧
    (Repo.init (fun _ => true) stubFail "/tmp/x").1 =
      Except.error (Exc.missingGitMetaClone "/tmp/x") :=
  C2_probe_failure_swallowed (fun _ => true) stubFail "/tmp/x" rfl (by decide)

/-- C3: for a candidate directory that does not exist, `get_working_dir`
raises `NoSuchPathException` with an empty spawn trace (no external process
is started, for every runner), and `Repo.__init__` propagates exactly that
failure, still with nothing spawned. -/
theorem C3_nonexistent_path_raises (fs : String → Bool) (run : Runner) (d : String)
    (hfs : fs d = false) :
    get_working_dir fs run d =
      (Except.error (Exc.noSuchPath ("Could not read " ++ d)), []) ∧
    Repo.init fs run d =
      (Except.error (Exc.noSuchPath ("Could not read " ++ d)), []) := by
  have h := get_working_dir_no_path fs run d hfs
  exact ⟨h, by simp [Repo.init, h]⟩

/-- C3 witness: a non-existing directory `/nope` under a runner that would
succeed if it were ever consulted. -/
theorem C3_witness :
    get_working_dir (fun _ => false) (stubOk "/repo\n") "/nope" =
      (Except.error (Exc.noSuchPath "Could not read /nope"), []) ∧
    Repo.init (fun _ => false) (stubOk "/repo\n") "/nope" =
      (Except.error (Exc.noSuchPath "Could not read /nope"), []) :=
  C3_nonexistent_path_raises (fun _ => false) (stubOk "/repo\n") "/nope" rfl

/-- C4: on exit code 0 the execute operation returns the captured stdout
with leading and trailing whitespace stripped (interior characters are
untouched by the character-level strip), and `help`/`version` return exactly
that stripped stdout. -/
theorem C4_success_returns_stripped_stdout (run : Runner) (cwd : Option String)
    (args : List String)
    (h : (run ⟨buildCmd args, cwd⟩).returncode = 0)
    (hh : (run ⟨buildCmd ["help"], cwd⟩).returncode = 0)
    (hv : (run ⟨buildCmd ["version"], cwd⟩).returncode = 0) :
    (execute_git_meta_cmd run args cwd).1 =
      Except.ok (pyStrip (run ⟨buildCmd args, cwd⟩).stdout) ∧
    (help run cwd).1 = Except.ok (pyStrip (run ⟨buildCmd ["help"], cwd⟩).stdout) ∧
    (version run cwd).1 = Except.ok (pyStrip (run ⟨buildCmd ["version"], cwd⟩).stdout) := by
  have h1 := execute_git_meta_cmd_ok run args cwd h
  have h2 := execute_git_meta_cmd_ok run ["help"] cwd hh
  have h3 := execute_git_meta_cmd_ok run ["version"] cwd hv
  exact ⟨by simp [h1], by simp [help, h2], by simp [version, h3]⟩

/-- C4 witness: a probe returning `"  /some/path\n"` resolves to exactly
`"/some/path"`. -/
theorem C4_witness :
    (execute_git_meta_cmd (stubOk "  /some/path\n") ["root"] none).1 =
      Except.ok "/some/path" := by
  have h := C4_success_returns_stripped_stdout (stubOk "  /some/path\n") none ["root"]
    rfl rfl rfl
  exact h.1.trans (congrArg Except.ok (by decide))

/-- C5: on non-zero exit the execute operation raises
`GitMetaCommandException` carrying exactly that exit code, the caller's
argument vector, and the full captured stdout and stderr; the identical
failure value propagates unchanged out of `help`, `version`, `open` and
`checkout`. -/
theorem C5_nonzero_exit_raises (run : Runner) (cwd : Option String) (repo : Repo)
    (args xs ys : List String)
    (h : (run ⟨buildCmd args, cwd⟩).returncode ≠ 0)
    (hh : (run ⟨buildCmd ["help"], cwd⟩).returncode ≠ 0)
    (hv : (run ⟨buildCmd ["version"], cwd⟩).returncode ≠ 0)
    (ho : (run ⟨buildCmd ("open" :: xs), some repo.working_dir⟩).returncode ≠ 0)
    (hc : (run ⟨buildCmd ("checkout" :: ys), some repo.working_dir⟩).returncode ≠ 0) :
    (execute_git_meta_cmd run args cwd).1 =
      Except.error (Exc.gitMetaCommand (run ⟨buildCmd args, cwd⟩).returncode args
        (run ⟨buildCmd args, cwd⟩).stdout (run ⟨buildCmd args, cwd⟩).stderr) ∧
    (help run cwd).1 =
      Except.error (Exc.gitMetaCommand (run ⟨buildCmd ["help"], cwd⟩).returncode ["help"]
        (run ⟨buildCmd ["help"], cwd⟩).stdout (run ⟨buildCmd ["help"], cwd⟩).stderr) ∧
    (version run cwd).1 =
      Except.error (Exc.gitMetaCommand (run ⟨buildCmd ["version"], cwd⟩).returncode ["version"]
        (run ⟨buildCmd ["version"], cwd⟩).stdout (run ⟨buildCmd ["version"], cwd⟩).stderr) ∧
    (repo.openCmd run (PyArg.list xs)).1 =
      Except.error (Exc.gitMetaCommand
        (run ⟨buildCmd ("open" :: xs), some repo.working_dir⟩).returncode ("open" :: xs)
        (run ⟨buildCmd ("open" :: xs), some repo.working_dir⟩).stdout
        (run ⟨buildCmd ("open" :: xs), some repo.working_dir⟩).stderr) ∧
    (repo.checkout run (PyArg.list ys)).1 =
      Except.error (Exc.gitMetaCommand
        (run ⟨buildCmd ("checkout" :: ys), some repo.working_dir⟩).returncode ("checkout" :: ys)
        (run ⟨buildCmd ("checkout" :: ys), some repo.working_dir⟩).stdout
        (run ⟨buildCmd ("checkout" :: ys), some repo.working_dir⟩).stderr) := by
  have h1 := execute_git_meta_cmd_err run args cwd h
  have h2 := execute_git_meta_cmd_err run ["help"] cwd hh
  have h3 := execute_git_meta_cmd_err run ["version"] cwd hv
  have h4 := execute_git_meta_cmd_err run ("open" :: xs) (some repo.working_dir) ho
  have h5 := execute_git_meta_cmd_err run ("checkout" :: ys) (some repo.working_dir) hc
  exact ⟨by simp [h1], by simp [help, h2], by simp [version, h3],
    by simp [Repo.openCmd, h4], by simp [Repo.checkout, h5]⟩

/-- C5 witness: the stub that always exits 1 with stderr `not a clone`,
observed through the raw execute call and through `open`. -/
theorem C5_witness :
    (execute_git_meta_cmd stubFail ["root"] none).1 =
      Except.error (Exc.gitMetaCommand 1 ["root"] "" "not a clone") ∧
    ((⟨"/repo", "/repo/.git"⟩ : Repo).openCmd stubFail (PyArg.list ["a"])).1 =
      Except.error (Exc.gitMetaCommand 1 ["open", "a"] "" "not a clone") := by
  have h := C5_nonzero_exit_raises stubFail none ⟨"/repo", "/repo/.git"⟩ ["root"] ["a"] ["b"]
    (by decide) (by decide) (by decide) (by decide) (by decide)
  exact ⟨h.1, h.2.2.2.1⟩

/-- C6: a plain string passed to `open`/`checkout` fails the
`assert isinstance(..., list)` precondition with an empty spawn trace (no
external process, for every runner), while the empty list is valid and
spawns exactly the bare subcommand vector bound to the working
directory. -/
theorem C6_sequence_precondition (repo : Repo) (run : Runner) (s : String) :
    repo.openCmd run (PyArg.pystr s) = (Except.error Exc.assertionError, []) ∧
    repo.checkout run (PyArg.pystr s) = (Except.error Exc.assertionError, []) ∧
    (repo.openCmd run (PyArg.list [])).2 =
      [⟨buildCmd ["open"], some repo.working_dir⟩] ∧
    (repo.checkout run (PyArg.list [])).2 =
      [⟨buildCmd ["checkout"], some repo.working_dir⟩] := by
  refine ⟨rfl, rfl, ?_, ?_⟩
  · rcases hE : execute_git_meta_cmd run ["open"] (some repo.working_dir) with ⟨res, tr⟩
    have htr : tr = [⟨buildCmd ["open"], some repo.working_dir⟩] := by
      have h := execute_git_meta_cmd_trace run ["open"] (some repo.working_dir)
      rw [hE] at h
      exact h
    cases res <;> simp [Repo.openCmd, hE, htr]
  · rcases hE : execute_git_meta_cmd run ["checkout"] (some repo.working_dir) with ⟨res, tr⟩
    have htr : tr = [⟨buildCmd ["checkout"], some repo.working_dir⟩] := by
      have h := execute_git_meta_cmd_trace run ["checkout"] (some repo.working_dir)
      rw [hE] at h
      exact h
    cases res <;> simp [Repo.checkout, hE, htr]

/-- C7: `is_open` is a purely local filesystem check — its definition takes
no runner and spawns nothing — and for separator-normal components it
consults exactly the path `working_dir ++ "/" ++ submodule ++ "/" ++ ".git"`:
it returns true precisely when that path exists. -/
theorem C7_is_open_local_check (fs : String → Bool) (repo : Repo) (sub : String)
    (h1 : pyStartsWith sub "/" = false)
    (h2 : repo.working_dir ≠ "")
    (h3 : pyEndsWith repo.working_dir "/" = false)
    (h4 : pyEndsWith (repo.working_dir ++ "/" ++ sub) "/" = false) :
    (repo.is_open fs sub = true ↔
      fs (repo.working_dir ++ "/" ++ sub ++ "/" ++ ".git") = true) := by
  have hg : pyStartsWith ".git" "/" = false := by decide
  have h5 := append_slash_ne_empty repo.working_dir sub
  simp [Repo.is_open, osPathJoin, h1, h2, h3, h4, h5, hg]

/-- C7 witness: a repo rooted at `/repo` and submodule `lib`, under a
filesystem where exactly `/repo/lib/.git` exists (true case) and under the
empty filesystem (false case). -/
theorem C7_witness :
    ((⟨"/repo", "/repo/.git"⟩ : Repo).is_open (fun p => p = "/repo/lib/.git") "lib" = true ↔
      ((fun p => p = "/repo/lib/.git") ("/repo" ++ "/" ++ "lib" ++ "/" ++ ".git") : Bool) = true) ∧
    ((⟨"/repo", "/repo/.git"⟩ : Repo).is_open (fun _ => false) "lib" = true ↔
      ((fun _ => false) ("/repo" ++ "/" ++ "lib" ++ "/" ++ ".git") : Bool) = true) :=
  ⟨C7_is_open_local_check (fun p => p = "/repo/lib/.git") ⟨"/repo", "/repo/.git"⟩ "lib"
      (by decide) (by decide) (by decide) (by decide),
   C7_is_open_local_check (fun _ => false) ⟨"/repo", "/repo/.git"⟩ "lib"
      (by decide) (by decide) (by decide) (by decide)⟩

/-- C8: when the root probe exits 0 with a stdout whose stripped form is
non-empty, construction yields exactly the repo whose `working_dir` is that
stripped stdout and whose `git_dir` is `os.path.join(working_dir, '.git')`;
hence any two constructions from the same directory under the same stub
agree. -/
theorem C8_deterministic_resolution (fs : String → Bool) (run : Runner) (d : String)
    (hfs : fs d = true)
    (hrc : (run ⟨buildCmd ["root"], some d⟩).returncode = 0)
    (hne : pyStrip (run ⟨buildCmd ["root"], some d⟩).stdout ≠ "") :
    (Repo.init fs run d).1 =
      Except.ok ⟨pyStrip (run ⟨buildCmd ["root"], some d⟩).stdout,
        osPathJoin (pyStrip (run ⟨buildCmd ["root"], some d⟩).stdout) ".git"⟩ ∧
    (∀ r1 r2 : Repo, (Repo.init fs run d).1 = Except.ok r1 →
      (Repo.init fs run d).1 = Except.ok r2 →
      r1 = r2 ∧ r1.git_dir = osPathJoin r1.working_dir ".git") := by
  have hg := get_working_dir_ok fs run d hfs hrc
  have h1 : (Repo.init fs run d).1 =
      Except.ok ⟨pyStrip (run ⟨buildCmd ["root"], some d⟩).stdout,
        osPathJoin (pyStrip (run ⟨buildCmd ["root"], some d⟩).stdout) ".git"⟩ := by
    simp [Repo.init, hg, hne]
  refine ⟨h1, ?_⟩
  intro r1 r2 e1 e2
  rw [h1] at e1 e2
  injection e1 with e1h
  injection e2 with e2h
  rw [← e1h, ← e2h]
  exact ⟨rfl, rfl⟩

/-- C8 witness: a stub echoing `/repo` (with a trailing newline) for every
call; construction from `/d` yields `working_dir = /repo`,
`git_dir = /repo/.git`. -/
theorem C8_witness :
    (Repo.init (fun _ => true) (stubOk "/repo\n") "/d").1 =
      Except.ok ⟨"/repo", "/repo/.git"⟩ := by
  have h := C8_deterministic_resolution (fun _ => true) (stubOk "/repo\n") "/d"
    rfl rfl (by decide)
  exact h.1.trans (congrArg Except.ok (by decide))

/-- C9: a probe exiting 0 with whitespace-only stdout strips to the empty
string, which the falsiness test `if not working_dir` treats as absent, so
construction raises `MissingGitMetaCloneException`; consequently every
successfully constructed repo has a non-empty `working_dir`. -/
theorem C9_empty_stdout_is_missing_clone (fs : String → Bool) (run : Runner) (d : String)
    (hfs : fs d = true)
    (hrc : (run ⟨buildCmd ["root"], some d⟩).returncode = 0)
    (hempty : pyStrip (run ⟨buildCmd ["root"], some d⟩).stdout = "") :
    (Repo.init fs run d).1 = Except.error (Exc.missingGitMetaClone d) ∧
    (∀ (fs2 : String → Bool) (run2 : Runner) (d2 : String) (r : Repo),
      (Repo.init fs2 run2 d2).1 = Except.ok r → r.working_dir ≠ "") := by
  constructor
  · have hg := get_working_dir_ok fs run d hfs hrc
    simp [Repo.init, hg, hempty]
  · intro fs2 run2 d2 r h
    rcases hg : get_working_dir fs2 run2 d2 with ⟨res, tr⟩
    match res with
    | Except.error e => simp [Repo.init, hg] at h
    | Except.ok none => simp [Repo.init, hg] at h
    | Except.ok (some w) =>
      by_cases hw : w = ""
      · simp [Repo.init, hg, hw] at h
      · simp [Repo.init, hg, hw] at h
        rw [← h]
        exact hw

/-- C9 witness: a stub whose root probe exits 0 printing only whitespace;
construction from `/d` raises the missing-clone failure. -/
theorem C9_witness :
    (Repo.init (fun _ => true) (stubOk "   \n") "/d").1 =
      Except.error (Exc.missingGitMetaClone "/d") :=
  (C9_empty_stdout_is_missing_clone (fun _ => true) (stubOk "   \n") "/d"
    rfl rfl (by decide)).1

/-- C10: `NoSuchPathException` is a subclass of both `GitMetaException` and
`OSError`, while the other binding failures (`MissingGitMetaCloneException`
and `GitMetaCommandException`) derive from `GitMetaException` alone and not
from `OSError`. -/
theorem C10_exception_hierarchy :
    isSubclass PyClass.noSuchPathException PyClass.gitMetaException = true ∧
    isSubclass PyClass.noSuchPathException PyClass.osError = true ∧
    isSubclass PyClass.missingGitMetaCloneException PyClass.gitMetaException = true ∧
    isSubclass PyClass.missingGitMetaCloneException PyClass.osError = false ∧
    isSubclass PyClass.gitMetaCommandException PyClass.gitMetaException = true ∧
    isSubclass PyClass.gitMetaCommandException PyClass.osError = false := by
  decide

end GitMeta
